import Mathlib

/-!
Verification of the rusoto core error taxonomy, embedded from
src/rusoto/core/src/error.rs.  The collaborator failure types
(XML parse failures, JSON decode failures, credential failures,
transport failures, raw responses) live outside src/ and are
modelled from the spec, as marked on each definition.
-/

namespace RusotoCore

/-- Modelled from the spec: the XML response decoder failure type
(XmlParseError from proto/xml/util, absent from src/), a failure
carrying a textual message. -/
structure XmlParseError where
  message : String
  deriving DecidableEq

/-- Modelled from the spec: the JSON response decoder failure type
(serde_json error, external crate), a failure whose textual rendering
is the string produced by its to_string method. -/
structure JsonError where
  rendering : String
  deriving DecidableEq

/-- The textual rendering of a JSON decode failure (its to_string). -/
def JsonError.toText (e : JsonError) : String := e.rendering

/-- Modelled from the spec: the credential-resolution failure type
(CredentialsError from the credential module, absent from src/),
exposing description semantics. -/
structure CredentialsError where
  message : String
  deriving DecidableEq

/-- Description text of a credential failure. -/
def CredentialsError.description (e : CredentialsError) : String := e.message

/-- Modelled from the spec: a raw I/O fault (read/write failure) with a
textual description. -/
structure IoError where
  message : String
  deriving DecidableEq

/-- Modelled from the spec: the transport/dispatch failure type
(HttpDispatchError from the request module, absent from src/),
exposing description semantics and convertible from a raw I/O fault. -/
structure HttpDispatchError where
  message : String
  deriving DecidableEq

/-- Description text of a transport failure. -/
def HttpDispatchError.description (e : HttpDispatchError) : String := e.message

/-- Modelled from the spec: the coercion of a raw I/O fault into the
transport-failure type (the From impl on HttpDispatchError). -/
def HttpDispatchError.fromIo (e : IoError) : HttpDispatchError :=
  ⟨e.message⟩

/-- Modelled from the spec: a buffered raw response (BufferedHttpResponse
from the request module, absent from src/): status code, headers, raw
body, and a method rendering the body as text. -/
structure BufferedHttpResponse where
  status : Nat
  headers : List (String × String)
  body : String
  deriving DecidableEq

/-- Render the body of a buffered response as text. -/
def BufferedHttpResponse.body_as_str (r : BufferedHttpResponse) : String :=
  r.body

/-- The interface required of the service-specific error payload E
(the Rust Error bound): it exposes a description. -/
class ErrorTrait (α : Type) where
  description : α → String

/-- Generic error type returned by all rusoto requests
(error.rs lines 12-27). -/
inductive RusotoError (E : Type) where
  /-- A service-specific error occurred. -/
  | Service : E → RusotoError E
  /-- A common-service error occurred. -/
  | ServiceCommonError : String → RusotoError E
  /-- An error occurred dispatching the HTTP request. -/
  | HttpDispatch : HttpDispatchError → RusotoError E
  /-- An error was encountered with AWS credentials. -/
  | Credentials : CredentialsError → RusotoError E
  /-- A validation error occurred. -/
  | Validation : String → RusotoError E
  /-- An error occurred parsing the response payload. -/
  | ParseError : String → RusotoError E
  /-- An unknown error occurred; the raw response is provided. -/
  | Unknown : BufferedHttpResponse → RusotoError E
  deriving DecidableEq

/-- From XmlParseError for RusotoError (error.rs lines 32-37):
destructure the message and wrap its to_string into ParseError. -/
def RusotoError.fromXmlParseError {E : Type} (err : XmlParseError) : RusotoError E :=
  RusotoError.ParseError err.message

/-- From the JSON decode failure for RusotoError (error.rs lines 39-43):
wrap the textual rendering into ParseError. -/
def RusotoError.fromJsonError {E : Type} (err : JsonError) : RusotoError E :=
  RusotoError.ParseError err.toText

/-- From CredentialsError for RusotoError (error.rs lines 45-49):
wrap the failure value unchanged into Credentials. -/
def RusotoError.fromCredentialsError {E : Type} (err : CredentialsError) : RusotoError E :=
  RusotoError.Credentials err

/-- From HttpDispatchError for RusotoError (error.rs lines 51-55):
wrap the failure value unchanged into HttpDispatch. -/
def RusotoError.fromHttpDispatchError {E : Type} (err : HttpDispatchError) : RusotoError E :=
  RusotoError.HttpDispatch err

/-- From the raw I/O fault for RusotoError (error.rs lines 57-61):
coerce into the transport-failure type, then wrap as HttpDispatch. -/
def RusotoError.fromIoError {E : Type} (err : IoError) : RusotoError E :=
  RusotoError.HttpDispatch (HttpDispatchError.fromIo err)

/-- description for RusotoError (error.rs lines 70-80): per-variant
display text. -/
def RusotoError.description {E : Type} [ErrorTrait E] : RusotoError E → String
  | RusotoError.Service err => ErrorTrait.description err
  | RusotoError.ServiceCommonError err => err
  | RusotoError.Validation cause => cause
  | RusotoError.Credentials err => err.description
  | RusotoError.HttpDispatch dispatch_error => dispatch_error.description
  | RusotoError.ParseError cause => cause
  | RusotoError.Unknown cause => cause.body_as_str

/-- Display for RusotoError (error.rs lines 63-67): formatting writes
exactly the description string. -/
def RusotoError.display {E : Type} [ErrorTrait E] (e : RusotoError E) : String :=
  e.description

/-- The dynamic payload reported as causal source by an envelope:
one of the three structured payloads. -/
inductive ErrSource (E : Type) where
  | service : E → ErrSource E
  | credentials : CredentialsError → ErrSource E
  | httpDispatch : HttpDispatchError → ErrSource E
  deriving DecidableEq

/-- source for RusotoError (error.rs lines 82-89): Service, Credentials
and HttpDispatch report their payload; all other variants report none. -/
def RusotoError.source {E : Type} : RusotoError E → Option (ErrSource E)
  | RusotoError.Service err => some (ErrSource.service err)
  | RusotoError.Credentials err => some (ErrSource.credentials err)
  | RusotoError.HttpDispatch err => some (ErrSource.httpDispatch err)
  | _ => none

/-- Discriminator: the envelope is the Service variant. -/
def RusotoError.isService {E : Type} : RusotoError E → Bool
  | RusotoError.Service _ => true
  | _ => false

/-- Discriminator: the envelope is the ServiceCommonError variant. -/
def RusotoError.isServiceCommonError {E : Type} : RusotoError E → Bool
  | RusotoError.ServiceCommonError _ => true
  | _ => false

/-- Discriminator: the envelope is the HttpDispatch variant. -/
def RusotoError.isHttpDispatch {E : Type} : RusotoError E → Bool
  | RusotoError.HttpDispatch _ => true
  | _ => false

/-- Discriminator: the envelope is the Credentials variant. -/
def RusotoError.isCredentials {E : Type} : RusotoError E → Bool
  | RusotoError.Credentials _ => true
  | _ => false

/-- Discriminator: the envelope is the Validation variant. -/
def RusotoError.isValidation {E : Type} : RusotoError E → Bool
  | RusotoError.Validation _ => true
  | _ => false

/-- Discriminator: the envelope is the ParseError variant. -/
def RusotoError.isParseError {E : Type} : RusotoError E → Bool
  | RusotoError.ParseError _ => true
  | _ => false

/-- Discriminator: the envelope is the Unknown variant. -/
def RusotoError.isUnknown {E : Type} : RusotoError E → Bool
  | RusotoError.Unknown _ => true
  | _ => false

/-- How many of the seven variant discriminators hold of an envelope. -/
def RusotoError.activeVariantCount {E : Type} (e : RusotoError E) : Nat :=
  List.count true
    [e.isService, e.isServiceCommonError, e.isHttpDispatch, e.isCredentials,
     e.isValidation, e.isParseError, e.isUnknown]

/-- Pattern-match extraction of a transport-failure payload. -/
def RusotoError.getHttpDispatch {E : Type} : RusotoError E → Option HttpDispatchError
  | RusotoError.HttpDispatch d => some d
  | _ => none

/-- Pattern-match extraction of a credential-failure payload. -/
def RusotoError.getCredentials {E : Type} : RusotoError E → Option CredentialsError
  | RusotoError.Credentials c => some c
  | _ => none

/-- Pattern-match extraction of a service-error payload. -/
def RusotoError.getService {E : Type} : RusotoError E → Option E
  | RusotoError.Service e => some e
  | _ => none

/-- A concrete service-specific error type used to instantiate E in
closed evaluations. -/
structure TestServiceError where
  message : String
  deriving DecidableEq

instance : ErrorTrait TestServiceError where
  description e := e.message

/-- C1: for every XML parse failure with message text m and every JSON
decode failure whose textual rendering is m, the generic conversion
yields the ParseError variant and the resulting envelope displays
exactly m. -/
theorem parse_failures_yield_ParseError_displaying_message (E : Type) [ErrorTrait E] :
    (∀ x : XmlParseError,
      RusotoError.fromXmlParseError (E := E) x = RusotoError.ParseError x.message ∧
      (RusotoError.fromXmlParseError (E := E) x).display = x.message) ∧
    (∀ j : JsonError,
      RusotoError.fromJsonError (E := E) j = RusotoError.ParseError j.toText ∧
      (RusotoError.fromJsonError (E := E) j).display = j.toText) := by
  constructor
  · intro x
    exact ⟨rfl, rfl⟩
  · intro j
    exact ⟨rfl, rfl⟩

/-- C2: for every credential-resolution failure c, the generic conversion
yields Credentials c with c unchanged, and the causal source reported by
that envelope is exactly c, the payload itself. -/
theorem credentials_conversion_wraps_and_sources_payload (E : Type) :
    ∀ c : CredentialsError,
      RusotoError.fromCredentialsError (E := E) c = RusotoError.Credentials c ∧
      (RusotoError.fromCredentialsError (E := E) c).source =
        some (ErrSource.credentials c) := by
  intro c
  exact ⟨rfl, rfl⟩

/-- C3: for every transport failure d the conversion yields HttpDispatch d
unchanged; for every raw I/O fault i the conversion yields HttpDispatch
applied to the coercion of i, so converting an I/O fault equals the
composition of the I/O-to-transport coercion with the transport
conversion. -/
theorem dispatch_and_io_conversions_share_HttpDispatch (E : Type) :
    (∀ d : HttpDispatchError,
      RusotoError.fromHttpDispatchError (E := E) d = RusotoError.HttpDispatch d) ∧
    (∀ i : IoError,
      RusotoError.fromIoError (E := E) i =
        RusotoError.HttpDispatch (HttpDispatchError.fromIo i) ∧
      RusotoError.fromIoError (E := E) i =
        RusotoError.fromHttpDispatchError (HttpDispatchError.fromIo i)) := by
  constructor
  · intro d
    rfl
  · intro i
    exact ⟨rfl, rfl⟩

/-- C4: the causal-source query returns some payload exactly on the
Service, Credentials and HttpDispatch variants, and returns none on
ServiceCommonError, Validation, ParseError and Unknown. -/
theorem source_some_iff_structured_variant (E : Type) :
    (∀ e : RusotoError E,
      (e.source).isSome = (e.isService || e.isCredentials || e.isHttpDispatch)) ∧
    (∀ x : E, (RusotoError.Service x).source = some (ErrSource.service x)) ∧
    (∀ c : CredentialsError,
      (RusotoError.Credentials c : RusotoError E).source =
        some (ErrSource.credentials c)) ∧
    (∀ d : HttpDispatchError,
      (RusotoError.HttpDispatch d : RusotoError E).source =
        some (ErrSource.httpDispatch d)) ∧
    (∀ s : String, (RusotoError.ServiceCommonError s : RusotoError E).source = none) ∧
    (∀ s : String, (RusotoError.Validation s : RusotoError E).source = none) ∧
    (∀ s : String, (RusotoError.ParseError s : RusotoError E).source = none) ∧
    (∀ r : BufferedHttpResponse,
      (RusotoError.Unknown r : RusotoError E).source = none) := by
  refine ⟨?_, fun x => rfl, fun c => rfl, fun d => rfl,
    fun s => rfl, fun s => rfl, fun s => rfl, fun r => rfl⟩
  intro e
  cases e <;> rfl

/-- C5: round-trip without loss: converting a transport failure, a
credential failure, or a service payload into an envelope and extracting
the payload back out by pattern-matching returns the original value. -/
theorem conversion_roundtrip_lossless (E : Type) :
    (∀ d : HttpDispatchError,
      (RusotoError.fromHttpDispatchError (E := E) d).getHttpDispatch = some d) ∧
    (∀ c : CredentialsError,
      (RusotoError.fromCredentialsError (E := E) c).getCredentials = some c) ∧
    (∀ x : E, (RusotoError.Service x).getService = some x) := by
  exact ⟨fun d => rfl, fun c => rfl, fun x => rfl⟩

/-- C6: for every string t, Validation t and ServiceCommonError t both
display exactly t, with no transformation; in particular both display
the text bad param when t is that text. -/
theorem validation_and_common_display_text_unchanged (E : Type) [ErrorTrait E] :
    (∀ t : String,
      (RusotoError.Validation t : RusotoError E).display = t ∧
      (RusotoError.ServiceCommonError t : RusotoError E).display = t) ∧
    (RusotoError.Validation "bad param" : RusotoError E).display = "bad param" ∧
    (RusotoError.ServiceCommonError "bad param" : RusotoError E).display =
      "bad param" := by
  exact ⟨fun t => ⟨rfl, rfl⟩, rfl, rfl⟩

/-- C7: an Unknown envelope whose buffered body renders as the empty
string displays as the empty string, and more generally every variant
whose payload text is empty displays that empty string, with no
placeholder substituted. -/
theorem empty_payload_text_displays_empty (E : Type) [ErrorTrait E] :
    (∀ r : BufferedHttpResponse, r.body_as_str = "" →
      (RusotoError.Unknown r : RusotoError E).display = "") ∧
    (∀ x : E, ErrorTrait.description x = "" →
      (RusotoError.Service x).display = "") ∧
    (∀ c : CredentialsError, c.description = "" →
      (RusotoError.Credentials c : RusotoError E).display = "") ∧
    (∀ d : HttpDispatchError, d.description = "" →
      (RusotoError.HttpDispatch d : RusotoError E).display = "") ∧
    (∀ s : String, s = "" →
      (RusotoError.ServiceCommonError s : RusotoError E).display = "" ∧
      (RusotoError.Validation s : RusotoError E).display = "" ∧
      (RusotoError.ParseError s : RusotoError E).display = "") := by
  refine ⟨fun r h => ?_, fun x h => ?_, fun c h => ?_, fun d h => ?_, fun s h => ?_⟩
  · simp [RusotoError.display, RusotoError.description, h]
  · simp [RusotoError.display, RusotoError.description, h]
  · simp [RusotoError.display, RusotoError.description, h]
  · simp [RusotoError.display, RusotoError.description, h]
  · subst h
    exact ⟨rfl, rfl, rfl⟩

/-- C7 witness: a concrete buffered response with empty body yields an
Unknown envelope displaying the empty string. -/
theorem empty_payload_text_displays_empty_witness :
    (RusotoError.Unknown ⟨200, [], ""⟩ : RusotoError TestServiceError).display = "" :=
  (empty_payload_text_displays_empty TestServiceError).1 ⟨200, [], ""⟩ rfl

/-- C8: every conversion rule is a total function: for each input failure
value it produces exactly one envelope variant, the one stated, and
never fails (each conversion is a plain function into the envelope type,
not into an option or error type). -/
theorem conversions_total_single_variant (E : Type) :
    (∀ x : XmlParseError,
      (RusotoError.fromXmlParseError (E := E) x).isParseError = true ∧
      (RusotoError.fromXmlParseError (E := E) x).activeVariantCount = 1) ∧
    (∀ j : JsonError,
      (RusotoError.fromJsonError (E := E) j).isParseError = true ∧
      (RusotoError.fromJsonError (E := E) j).activeVariantCount = 1) ∧
    (∀ c : CredentialsError,
      (RusotoError.fromCredentialsError (E := E) c).isCredentials = true ∧
      (RusotoError.fromCredentialsError (E := E) c).activeVariantCount = 1) ∧
    (∀ d : HttpDispatchError,
      (RusotoError.fromHttpDispatchError (E := E) d).isHttpDispatch = true ∧
      (RusotoError.fromHttpDispatchError (E := E) d).activeVariantCount = 1) ∧
    (∀ i : IoError,
      (RusotoError.fromIoError (E := E) i).isHttpDispatch = true ∧
      (RusotoError.fromIoError (E := E) i).activeVariantCount = 1) := by
  exact ⟨fun x => ⟨rfl, rfl⟩, fun j => ⟨rfl, rfl⟩, fun c => ⟨rfl, rfl⟩,
    fun d => ⟨rfl, rfl⟩, fun i => ⟨rfl, rfl⟩⟩

/-- C9: every constructed envelope has exactly one of the seven variants
active: at least one discriminator holds, and the number of holding
discriminators is exactly one. -/
theorem exactly_one_variant_active (E : Type) :
    ∀ e : RusotoError E,
      (e.isService || e.isServiceCommonError || e.isHttpDispatch ||
        e.isCredentials || e.isValidation || e.isParseError || e.isUnknown) = true ∧
      e.activeVariantCount = 1 := by
  intro e
  cases e <;> exact ⟨rfl, rfl⟩

/-- C10: for every envelope the Display rendering and the description
query produce the same string: formatting delegates to description. -/
theorem display_eq_description (E : Type) [ErrorTrait E] :
    ∀ e : RusotoError E, e.display = e.description := by
  intro e
  rfl

end RusotoCore
